import Mathlib

/-!
Shallow embedding of the Route Expansion & Map Rendering Pipeline of
KOU-ROTA-PLANLAMA (`src/components/admin/PlanningMap.tsx`; the user-map
variant `src/unnamed/part_008` has identical control flow modulo field
names).  JavaScript numbers are modelled as `Int`, the station `Map` as a
function `Int → Option Station`, and fallible service calls as an `Oracle`
recording each response.  React state updates are modelled as an explicit
write trace (`W`) folded over a `RState`, so that cancellation (the
`AbortController` recreated per effect run) can be stated as a property of
the trace a superseded cycle emits.
-/

namespace PlanningMap

/-- `MAP_COLORS` from PlanningMap.tsx. -/
def MAP_COLORS : List String :=
  ["#34d399", "#22d3ee", "#fbbf24", "#a78bfa", "#f472b6", "#fb7185"]

/-- `DEFAULT_CENTER` from PlanningMap.tsx (coordinates as integers). -/
def DEFAULT_CENTER : Int × Int := (39, 35)

/-- `MAP_COLORS[vIdx % MAP_COLORS.length]`; the index is always in range so
the `getD` default is unreachable. -/
def mapColor (i : Nat) : String := MAP_COLORS.getD (i % MAP_COLORS.length) ""

/-- `PlanningStop` from PlanningMap.tsx. -/
structure PlanningStop where
  station_id : Int
  station_name : String
  demand_kg : Int
  cargo_count : Int
deriving DecidableEq, Repr

/-- `PlanningVehicle` from PlanningMap.tsx. -/
structure PlanningVehicle where
  vehicle_id : String
  capacity_kg : Int
  is_rental : Bool
  load_kg : Int
  stops : List PlanningStop
  total_km : Int
  total_cost : Int
deriving DecidableEq, Repr

/-- The part of `PlanningResponse` the pipeline reads (`planning.vehicles`). -/
structure Planning where
  vehicles : List PlanningVehicle
deriving DecidableEq, Repr

/-- `Station` from PlanningMap.tsx (`GET /stations` row). -/
structure Station where
  id : Int
  name : String
  lat : Int
  lon : Int
  is_active : Bool
deriving DecidableEq, Repr

/-- `PolylineData` from PlanningMap.tsx. -/
structure PolylineData where
  id : String
  color : String
  points : List (Int × Int)
deriving DecidableEq, Repr

/-- `RenderState`: the component's observable output
(`stations`, `polylines`, `loading`, `error`). -/
structure RState where
  stations : List Station
  polylines : List PolylineData
  loading : Bool
  error : Option String
deriving DecidableEq, Repr

/-- One `setXxx` state update issued by the effect. -/
inductive W where
  | stations (l : List Station)
  | polylines (l : List PolylineData)
  | error (e : Option String)
  | loading (b : Bool)
deriving DecidableEq, Repr

def applyW (s : RState) : W → RState
  | .stations l => { s with stations := l }
  | .polylines l => { s with polylines := l }
  | .error e => { s with error := e }
  | .loading b => { s with loading := b }

def applyWs (s : RState) (ws : List W) : RState := ws.foldl applyW s

/-- Outcome of one `POST /graph/expand-route` call: a non-2xx / network
failure (the thrown error), or a 2xx response whose
`expanded_station_ids` field may be absent or falsy (`none`). -/
inductive ExpandResp where
  | fail
  | ok (payload : Option (List Int))
deriving DecidableEq, Repr

/-- The service responses observed during one render cycle:
`stationsResp = none` models a failing `GET /stations`, and `expandResp i`
is the response to the expansion call issued for vehicle index `i`. -/
structure Oracle where
  stationsResp : Option (List Station)
  expandResp : Nat → ExpandResp

/-- `return payload.expanded_station_ids || [];` in `expandRoute`. -/
def expandRouteResult (payload : Option (List Int)) : List Int := payload.getD []

/-- `stationMap` built by `stationList.forEach((st) => stationMap.set(st.id, st))`:
later entries overwrite earlier ones. -/
def stationMapOf (l : List Station) : Int → Option Station :=
  l.foldl (fun m st => fun k => if k = st.id then some st else m k) (fun _ => none)

/-- The body of the duplicate-consecutive-point guard:
`if (!last || last[0] !== coord[0] || last[1] !== coord[1]) points.push(coord)`. -/
def pushPoint (points : List (Int × Int)) (coord : Int × Int) : List (Int × Int) :=
  match points.getLast? with
  | none => points ++ [coord]
  | some last => if last = coord then points else points ++ [coord]

/-- The `for (const sid of expandedIds)` loop converting expanded ids to
coordinates: missing ids are skipped, consecutive duplicates collapsed. -/
def buildPoints (expandedIds : List Int) (smap : Int → Option Station) :
    List (Int × Int) :=
  expandedIds.foldl
    (fun points sid =>
      match smap sid with
      | none => points
      | some st => pushPoint points (st.lat, st.lon))
    []

/-- `vehicle.vehicle_id || ` `` `vehicle-${vIdx + 1}` ``; `||` is falsy on
the empty string. -/
def routeIdOf (v : PlanningVehicle) (vIdx : Nat) : String :=
  if v.vehicle_id = "" then "vehicle-" ++ toString (vIdx + 1) else v.vehicle_id

/-- `vehicle.vehicle_id || ` `` `Araç ${vIdx + 1}` `` used for the error entry. -/
def routeNameOf (v : PlanningVehicle) (vIdx : Nat) : String :=
  if v.vehicle_id = "" then "Araç " ++ toString (vIdx + 1) else v.vehicle_id

/-- The error entry pushed for a failed route: `` `${vehicleName}: Rota hesaplanamadı` ``. -/
def routeErrEntry (v : PlanningVehicle) (vIdx : Nat) : String :=
  routeNameOf v vIdx ++ ": Rota hesaplanamadı"

/-- The `for (let vIdx = 0; ...)` loop over `planning.vehicles` in
`buildRoutes`, for a cycle that is never aborted.  Returns the `routes`
and `routeErrors` accumulators plus the list of expansion calls issued
(vehicle index and request `station_ids`).  `hasError` in the source is
set exactly when an entry is pushed onto `routeErrors`, so it is
represented by that list being nonempty. -/
def buildLoop (smap : Int → Option Station) (orc : Nat → ExpandResp) :
    Nat → List PlanningVehicle →
      List PolylineData × List String × List (Nat × List Int)
  | _, [] => ([], [], [])
  | vIdx, v :: rest =>
    let r := buildLoop smap orc (vIdx + 1) rest
    if v.stops.isEmpty then r
    else
      let stationIds := v.stops.map (·.station_id)
      match orc vIdx with
      | .fail => (r.1, routeErrEntry v vIdx :: r.2.1, (vIdx, stationIds) :: r.2.2)
      | .ok payload =>
        let points := buildPoints (expandRouteResult payload) smap
        (if points.length > 1 then
            ⟨routeIdOf v vIdx, mapColor vIdx, points⟩ :: r.1
          else r.1,
         r.2.1, (vIdx, stationIds) :: r.2.2)

/-- `Array.prototype.join(", ")`. -/
def joinComma : List String → String
  | [] => ""
  | [x] => x
  | x :: y :: rest => x ++ ", " ++ joinComma (y :: rest)

/-- The message set by the outer catch (directory fetch failure). -/
def fatalMsg : String :=
  "Bu rota için bazı istasyonlar arasında yol bulunamadı. Lütfen km bağlantılarını kontrol edin."

/-- The aggregated partial-failure warning:
the fatal text followed by `(` routeErrors.join(", ") `)`. -/
def warnMsg (es : List String) : String :=
  fatalMsg ++ " (" ++ joinComma es ++ ")"

/-- The synchronous writes at the top of `buildRoutes`:
`setLoading(true); setError(null); setPolylines([]);`. -/
def cycleStartWs : List W := [.loading true, .error none, .polylines []]

/-- The writes of `buildRoutes` after its start block, when the cycle is
never aborted, together with the expansion calls issued.  On directory
failure the outer catch sets the fatal error and the loop is never
reached; on success the completion block runs
`setStations`, `setPolylines`, conditionally `setError`, then the
`finally` runs `setLoading(false)`. -/
def cycleTail (p : Planning) (o : Oracle) :
    List W × List (Nat × List Int) :=
  match o.stationsResp with
  | none => ([.error (some fatalMsg), .loading false], [])
  | some stationList =>
    let smap := stationMapOf stationList
    let r := buildLoop smap o.expandResp 0 p.vehicles
    ([.stations stationList, .polylines r.1] ++
       (if r.2.1.isEmpty then [] else [.error (some (warnMsg r.2.1))]) ++
       [.loading false],
     r.2.2)

/-- Final state of one uncancelled render cycle started from state `s`. -/
def runCycle (s : RState) (p : Planning) (o : Oracle) : RState :=
  applyWs s (cycleStartWs ++ (cycleTail p o).1)

/-- The expansion calls issued by one uncancelled render cycle. -/
def cycleCalls (p : Planning) (o : Oracle) : List (Nat × List Int) :=
  (cycleTail p o).2

/-- The writes of the `if (!planning)` branch of the effect:
`setStations([]); setPolylines([]); setError(null);` — `loading` is not
touched. -/
def nullClearWs : List W := [.stations [], .polylines [], .error none]

/-!
Cancellation model.  Each service call is a suspension point of the
single-threaded event loop; calls are numbered in issue order (the
directory fetch is call `0`, the expansion call for the `c`-th attempted
vehicle is call `c`).  `abortAt = some j` means the superseding trigger
arrives while the cycle is suspended on call `j`: that call rejects with
the abort flag set (`AbortController.abort` rejects the pending `fetch`
and body read), and `controller.signal.aborted` is `true` from then on,
`false` before.  Code between suspension points runs atomically, so a
trigger can only be observed at a suspension point.
-/

/-- The vehicle loop with the abort model: `none` means the function
returned from inside a catch after observing `controller.signal.aborted`
(discarding its local accumulators and skipping every later write). -/
def buildLoopA (smap : Int → Option Station) (orc : Nat → ExpandResp)
    (abortAt : Option Nat) :
    Nat → Nat → List PlanningVehicle →
      Option (List PolylineData × List String × List (Nat × List Int))
  | _, _, [] => some ([], [], [])
  | vIdx, c, v :: rest =>
    if v.stops.isEmpty then buildLoopA smap orc abortAt (vIdx + 1) c rest
    else if abortAt = some c then none
    else
      let stationIds := v.stops.map (·.station_id)
      match orc vIdx with
      | .fail =>
        (buildLoopA smap orc abortAt (vIdx + 1) (c + 1) rest).map
          (fun r => (r.1, routeErrEntry v vIdx :: r.2.1, (vIdx, stationIds) :: r.2.2))
      | .ok payload =>
        let points := buildPoints (expandRouteResult payload) smap
        (buildLoopA smap orc abortAt (vIdx + 1) (c + 1) rest).map
          (fun r =>
            (if points.length > 1 then
                ⟨routeIdOf v vIdx, mapColor vIdx, points⟩ :: r.1
              else r.1,
             r.2.1, (vIdx, stationIds) :: r.2.2))

/-- The post-start writes of `buildRoutes` under the abort model.  An abort
observed at any suspension point reaches a catch whose
`if (controller.signal.aborted) return;` exits `buildRoutes`, and the
`finally` guard `if (!controller.signal.aborted)` then also skips
`setLoading(false)`, so no write at all is emitted. -/
def cycleTailWsA (p : Planning) (o : Oracle) (abortAt : Option Nat) : List W :=
  if abortAt = some 0 then []
  else
    match o.stationsResp with
    | none => [.error (some fatalMsg), .loading false]
    | some stationList =>
      let smap := stationMapOf stationList
      match buildLoopA smap o.expandResp abortAt 0 1 p.vehicles with
      | none => []
      | some r =>
        [.stations stationList, .polylines r.1] ++
          (if r.2.1.isEmpty then [] else [.error (some (warnMsg r.2.1))]) ++
          [.loading false]

/-- All writes one render cycle emits under the abort model, the
synchronous start block included. -/
def runCycleWs (p : Planning) (o : Oracle) (abortAt : Option Nat) : List W :=
  cycleStartWs ++ cycleTailWsA p o abortAt

/-- Number of vehicles for which an expansion call is issued
(`if (!stops.length) continue;` skips the rest). -/
def attemptedCountL (vs : List PlanningVehicle) : Nat :=
  (vs.filter (fun v => !v.stops.isEmpty)).length

/-- Number of service calls a cycle makes when it is allowed to settle:
the directory fetch, plus one expansion per attempted vehicle. -/
def numCalls (p : Planning) (o : Oracle) : Nat :=
  match o.stationsResp with
  | none => 1
  | some _ => 1 + attemptedCountL p.vehicles

/-! ### Basic lemmas about the loop and the cycle -/

theorem buildLoopA_none_eq (smap : Int → Option Station) (orc : Nat → ExpandResp) :
    ∀ (vs : List PlanningVehicle) (vIdx c : Nat),
      buildLoopA smap orc none vIdx c vs = some (buildLoop smap orc vIdx vs) := by
  intro vs
  induction vs with
  | nil => intro vIdx c; rfl
  | cons v rest ih =>
    intro vIdx c
    simp only [buildLoopA, buildLoop]
    by_cases hs : v.stops.isEmpty
    · simp [hs, ih]
    · simp only [hs, if_false]
      have : (none : Option Nat) = some c ↔ False := by simp
      cases horc : orc vIdx with
      | fail => simp [ih]
      | ok payload => simp [ih]

theorem cycleTail_eq_tailWsA (p : Planning) (o : Oracle) :
    (cycleTail p o).1 = cycleTailWsA p o none := by
  unfold cycleTail cycleTailWsA
  cases o.stationsResp with
  | none => simp
  | some sl => simp [buildLoopA_none_eq]

/-- If the superseding trigger arrives while the cycle is still suspended
on one of its calls, the vehicle loop exits through an aborted catch. -/
theorem buildLoopA_aborted (smap : Int → Option Station) (orc : Nat → ExpandResp)
    (j : Nat) :
    ∀ (vs : List PlanningVehicle) (vIdx c : Nat),
      c ≤ j → j < c + attemptedCountL vs →
      buildLoopA smap orc (some j) vIdx c vs = none := by
  intro vs
  induction vs with
  | nil =>
    intro vIdx c hcj hj
    simp [attemptedCountL] at hj
    omega
  | cons v rest ih =>
    intro vIdx c hcj hj
    simp only [buildLoopA]
    by_cases hs : v.stops.isEmpty
    · have hcount : attemptedCountL (v :: rest) = attemptedCountL rest := by
        simp [attemptedCountL, List.filter_cons, hs]
      rw [hcount] at hj
      simp [hs, ih (vIdx + 1) c hcj hj]
    · have hcount : attemptedCountL (v :: rest) = 1 + attemptedCountL rest := by
        simp only [attemptedCountL, List.filter_cons, hs]
        simp
        omega
      rw [hcount] at hj
      by_cases hc : j = c
      · simp [hs, hc]
      · have hcj' : c + 1 ≤ j := by omega
        have hj' : j < (c + 1) + attemptedCountL rest := by omega
        have hrec := ih (vIdx + 1) (c + 1) hcj' hj'
        simp only [hs, if_false]
        cases orc vIdx with
        | fail => simp [hc, hrec]
        | ok payload => simp [hc, hrec]

/-- A cycle superseded before it settles emits only its synchronous start
block: the suspended call rejects, every catch path returns on
`controller.signal.aborted`, and the `finally` skips `setLoading(false)`. -/
theorem runCycleWs_aborted (p : Planning) (o : Oracle) (j : Nat)
    (hj : j < numCalls p o) :
    runCycleWs p o (some j) = cycleStartWs := by
  unfold runCycleWs cycleTailWsA
  by_cases hne : j = 0
  · simp [hne]
  · cases hsr : o.stationsResp with
    | none =>
      simp [numCalls, hsr] at hj
      omega
    | some sl =>
      simp only [numCalls, hsr] at hj
      have h1 : 1 ≤ j := by omega
      have hab := buildLoopA_aborted (stationMapOf sl) o.expandResp j p.vehicles 0 1 h1 hj
      simp [hne, hsr, hab]

/-- The loop result over a concatenation splits componentwise; the second
part is processed at the shifted indices (every vehicle keeps its index in
the full input list). -/
theorem buildLoop_append (smap : Int → Option Station) (orc : Nat → ExpandResp) :
    ∀ (xs ys : List PlanningVehicle) (k : Nat),
      buildLoop smap orc k (xs ++ ys) =
        ((buildLoop smap orc k xs).1 ++ (buildLoop smap orc (k + xs.length) ys).1,
         (buildLoop smap orc k xs).2.1 ++ (buildLoop smap orc (k + xs.length) ys).2.1,
         (buildLoop smap orc k xs).2.2 ++ (buildLoop smap orc (k + xs.length) ys).2.2) := by
  intro xs
  induction xs with
  | nil => intro ys k; simp [buildLoop]
  | cons x xs ih =>
    intro ys k
    have harith : k + (x :: xs).length = (k + 1) + xs.length := by
      simp [List.length_cons]; omega
    simp only [List.cons_append, buildLoop, harith]
    by_cases hs : x.stops.isEmpty
    · simpa [hs] using ih ys (k + 1)
    · simp only [hs, if_false]
      cases orc k with
      | fail => simp [ih ys (k + 1)]
      | ok payload =>
        by_cases hlen : (buildPoints (expandRouteResult payload) smap).length > 1
        · simp [hlen, ih ys (k + 1)]
        · simp [hlen, ih ys (k + 1)]

/-- Final state of a cycle whose directory fetch fails: the outer catch
sets the fatal message, the start block had cleared `polylines`, `stations`
is never written. -/
theorem runCycle_dirFail (s : RState) (p : Planning) (o : Oracle)
    (h : o.stationsResp = none) :
    runCycle s p o =
      { stations := s.stations, polylines := [], loading := false,
        error := some fatalMsg } := by
  simp [runCycle, cycleTail, h, applyWs, cycleStartWs, applyW]

/-- Final state of a cycle whose directory fetch succeeds. -/
theorem runCycle_dirOk (s : RState) (p : Planning) (o : Oracle)
    (sl : List Station) (h : o.stationsResp = some sl) :
    runCycle s p o =
      { stations := sl,
        polylines := (buildLoop (stationMapOf sl) o.expandResp 0 p.vehicles).1,
        loading := false,
        error :=
          if (buildLoop (stationMapOf sl) o.expandResp 0 p.vehicles).2.1.isEmpty
          then none
          else some (warnMsg (buildLoop (stationMapOf sl) o.expandResp 0 p.vehicles).2.1) } := by
  by_cases he : (buildLoop (stationMapOf sl) o.expandResp 0 p.vehicles).2.1.isEmpty <;>
    simp [runCycle, cycleTail, h, he, applyWs, cycleStartWs, applyW]

/-- An element of a joined list appears verbatim inside the join. -/
theorem joinComma_decomp (s : String) :
    ∀ (l : List String), s ∈ l →
      ∃ a b : String, joinComma l = a ++ s ++ b := by
  intro l
  induction l with
  | nil => intro h; exact absurd h (List.not_mem_nil s)
  | cons x rest ih =>
    intro hmem
    cases rest with
    | nil =>
      have hx : s = x := by simpa using hmem
      exact ⟨"", "", by simp [joinComma, hx, String.empty_append, String.append_empty]⟩
    | cons y rest' =>
      rcases List.mem_cons.mp hmem with hx | hmem'
      · refine ⟨"", ", " ++ joinComma (y :: rest'), ?_⟩
        simp [joinComma, hx, String.empty_append, String.append_assoc]
      · obtain ⟨a, b, hab⟩ := ih hmem'
        refine ⟨x ++ ", " ++ a, b, ?_⟩
        simp [joinComma, hab, String.append_assoc]

/-! ### The polyline builder as lookup-then-collapse -/

/-- The coordinates of the expanded ids, in order, ids missing from the
directory dropped. -/
def coordsOf (ids : List Int) (smap : Int → Option Station) : List (Int × Int) :=
  ids.filterMap (fun sid => (smap sid).map (fun st => (st.lat, st.lon)))

/-- Collapse runs of consecutive equal points to a single point. -/
def collapseConsecutive : List (Int × Int) → List (Int × Int)
  | [] => []
  | [a] => [a]
  | a :: b :: rest =>
    if a = b then collapseConsecutive (b :: rest)
    else a :: collapseConsecutive (b :: rest)

/-- Collapse with an explicit pending previous point. -/
def collapseFrom : Option (Int × Int) → List (Int × Int) → List (Int × Int)
  | _, [] => []
  | none, a :: rest => a :: collapseFrom (some a) rest
  | some p, a :: rest =>
    if p = a then collapseFrom (some p) rest
    else a :: collapseFrom (some a) rest

theorem foldl_pushPoint_eq (pts : List (Int × Int)) :
    ∀ acc : List (Int × Int),
      pts.foldl pushPoint acc = acc ++ collapseFrom acc.getLast? pts := by
  induction pts with
  | nil => intro acc; simp [collapseFrom]
  | cons a rest ih =>
    intro acc
    cases hl : acc.getLast? with
    | none =>
      have hacc : acc = [] := by
        cases acc with
        | nil => rfl
        | cons x xs => simp [List.getLast?_concat] at hl
      subst hacc
      simp only [List.foldl_cons, pushPoint, List.getLast?_nil, List.nil_append]
      rw [ih [a]]
      simp [collapseFrom, List.getLast?_concat]
    | some p =>
      simp only [List.foldl_cons, pushPoint, hl]
      by_cases hpa : p = a
      · rw [if_pos hpa, ih acc, hl]
        simp [collapseFrom, hpa]
      · rw [if_neg hpa, ih (acc ++ [a]), List.getLast?_concat]
        simp [collapseFrom, hpa, List.append_assoc]

theorem buildPoints_eq_foldl (smap : Int → Option Station) :
    ∀ (ids : List Int) (acc : List (Int × Int)),
      ids.foldl
        (fun points sid =>
          match smap sid with
          | none => points
          | some st => pushPoint points (st.lat, st.lon)) acc =
      (coordsOf ids smap).foldl pushPoint acc := by
  intro ids
  induction ids with
  | nil => intro acc; simp [coordsOf]
  | cons sid rest ih =>
    intro acc
    cases hm : smap sid with
    | none => simp [coordsOf, List.filterMap_cons, hm, ih, coordsOf]
    | some st => simp [coordsOf, List.filterMap_cons, hm, ih, coordsOf]

theorem collapseFrom_none_eq (l : List (Int × Int)) :
    collapseFrom none l = collapseConsecutive l := by
  have key : ∀ (t : List (Int × Int)) (a : Int × Int),
      a :: collapseFrom (some a) t = collapseConsecutive (a :: t) := by
    intro t
    induction t with
    | nil => intro a; simp [collapseFrom, collapseConsecutive]
    | cons b rest ih =>
      intro a
      by_cases hab : a = b
      · subst hab
        simpa [collapseFrom, collapseConsecutive] using ih a
      · simp only [collapseFrom, if_neg hab, collapseConsecutive, if_neg hab]
        rw [← ih b]
  cases l with
  | nil => rfl
  | cons a rest => simpa [collapseFrom] using key rest a

theorem collapseConsecutive_sublist :
    ∀ l : List (Int × Int), List.Sublist (collapseConsecutive l) l := by
  intro l
  induction l with
  | nil => simp [collapseConsecutive]
  | cons a rest ih =>
    cases rest with
    | nil => simp [collapseConsecutive]
    | cons b rest' =>
      by_cases hab : a = b
      · simp only [collapseConsecutive, if_pos hab]
        exact ih.trans (List.sublist_cons_self a (b :: rest'))
      · simp only [collapseConsecutive, if_neg hab]
        exact ih.cons₂ a

/-! ### The bounds calculator -/

/-- A Leaflet `LatLngBounds` rectangle. -/
structure MapBounds where
  minLat : Int
  maxLat : Int
  minLon : Int
  maxLon : Int
deriving DecidableEq, Repr

/-- `bounds.extend(point)`. -/
def extendB (b : MapBounds) (q : Int × Int) : MapBounds :=
  ⟨min b.minLat q.1, max b.maxLat q.1, min b.minLon q.2, max b.maxLon q.2⟩

/-- `L.latLngBounds(points)`: the min/max rectangle of a point list,
undefined on the empty list (the component never calls it on one). -/
def latLngBounds : List (Int × Int) → Option MapBounds
  | [] => none
  | q :: rest => some (rest.foldl extendB ⟨q.1, q.1, q.2, q.2⟩)

/-- `allPoints` accumulated from every polyline, in order. -/
def allPointsOf (pls : List PolylineData) : List (Int × Int) :=
  (pls.map (·.points)).flatten

/-- The `bounds` memo of the component: min/max rectangle of all polyline
points, else a one-point rectangle around the first station whose
coordinates are truthy (`s.lat && s.lon`), else `null`. -/
def boundsOf (pls : List PolylineData) (stations : List Station) :
    Option MapBounds :=
  let allPoints := allPointsOf pls
  if allPoints.isEmpty then
    match stations.find? (fun s => s.lat != 0 && s.lon != 0) with
    | some st => some ⟨st.lat, st.lat, st.lon, st.lon⟩
    | none => none
  else
    latLngBounds allPoints

/-- `center = bounds ? bounds.getCenter() : DEFAULT_CENTER`. -/
def centerOf (b : Option MapBounds) : Int × Int :=
  match b with
  | some b => ((b.minLat + b.maxLat) / 2, (b.minLon + b.maxLon) / 2)
  | none => DEFAULT_CENTER

/-- Every point of the list lies inside the rectangle. -/
def covers (b : MapBounds) (pts : List (Int × Int)) : Prop :=
  ∀ q ∈ pts, b.minLat ≤ q.1 ∧ q.1 ≤ b.maxLat ∧ b.minLon ≤ q.2 ∧ q.2 ≤ b.maxLon

/-- Rectangle `b` lies inside rectangle `b'`. -/
def rectWithin (b b' : MapBounds) : Prop :=
  b'.minLat ≤ b.minLat ∧ b.maxLat ≤ b'.maxLat ∧
    b'.minLon ≤ b.minLon ∧ b.maxLon ≤ b'.maxLon

theorem rectWithin_refl (b : MapBounds) : rectWithin b b :=
  ⟨le_refl _, le_refl _, le_refl _, le_refl _⟩

theorem rectWithin_trans {a b c : MapBounds}
    (h1 : rectWithin a b) (h2 : rectWithin b c) : rectWithin a c :=
  ⟨le_trans h2.1 h1.1, le_trans h1.2.1 h2.2.1,
   le_trans h2.2.2.1 h1.2.2.1, le_trans h1.2.2.2 h2.2.2.2⟩

theorem covers_of_within {b b' : MapBounds} {pts : List (Int × Int)}
    (hw : rectWithin b b') (hc : covers b pts) : covers b' pts := by
  intro q hq
  obtain ⟨h1, h2, h3, h4⟩ := hc q hq
  exact ⟨le_trans hw.1 h1, le_trans h2 hw.2.1,
         le_trans hw.2.2.1 h3, le_trans h4 hw.2.2.2⟩

theorem rectWithin_extendB (b : MapBounds) (q : Int × Int) :
    rectWithin b (extendB b q) :=
  ⟨min_le_left _ _, le_max_left _ _, min_le_left _ _, le_max_left _ _⟩

theorem extendB_covers_point (b : MapBounds) (q : Int × Int) :
    covers (extendB b q) [q] := by
  intro r hr
  simp only [List.mem_singleton] at hr
  subst hr
  exact ⟨min_le_right _ _, le_max_right _ _, min_le_right _ _, le_max_right _ _⟩

theorem foldl_extendB_grow (pts : List (Int × Int)) :
    ∀ b : MapBounds, rectWithin b (pts.foldl extendB b) := by
  induction pts with
  | nil => intro b; exact rectWithin_refl b
  | cons q rest ih =>
    intro b
    exact rectWithin_trans (rectWithin_extendB b q) (ih (extendB b q))

theorem foldl_extendB_covers (pts : List (Int × Int)) :
    ∀ b : MapBounds, covers (pts.foldl extendB b) pts := by
  induction pts with
  | nil => intro b q hq; exact absurd hq (List.not_mem_nil q)
  | cons q rest ih =>
    intro b r hr
    rcases List.mem_cons.mp hr with hq | hr'
    · subst hq
      exact covers_of_within (foldl_extendB_grow rest (extendB b r))
        (extendB_covers_point b r) r (List.mem_singleton.mpr rfl)
    · exact ih (extendB b q) r hr'

theorem foldl_extendB_minimal (pts : List (Int × Int)) :
    ∀ b b' : MapBounds, rectWithin b b' → covers b' pts →
      rectWithin (pts.foldl extendB b) b' := by
  induction pts with
  | nil => intro b b' hw _; exact hw
  | cons q rest ih =>
    intro b b' hw hc
    obtain ⟨h1, h2, h3, h4⟩ := hc q (List.mem_cons_self q rest)
    refine ih (extendB b q) b' ⟨?_, ?_, ?_, ?_⟩ ?_
    · exact le_min hw.1 h1
    · exact max_le hw.2.1 h2
    · exact le_min hw.2.2.1 h3
    · exact max_le hw.2.2.2 h4
    · exact fun r hr => hc r (List.mem_cons_of_mem q hr)

/-- On a nonempty point list, `latLngBounds` is the least covering
rectangle. -/
theorem latLngBounds_least (q : Int × Int) (rest : List (Int × Int)) :
    ∃ b, latLngBounds (q :: rest) = some b ∧ covers b (q :: rest) ∧
      ∀ b', covers b' (q :: rest) → rectWithin b b' := by
  refine ⟨rest.foldl extendB ⟨q.1, q.1, q.2, q.2⟩, rfl, ?_, ?_⟩
  · intro r hr
    rcases List.mem_cons.mp hr with hq | hr'
    · subst hq
      have hg := foldl_extendB_grow rest ⟨r.1, r.1, r.2, r.2⟩
      exact ⟨hg.1, hg.2.1, hg.2.2.1, hg.2.2.2⟩
    · exact foldl_extendB_covers rest ⟨q.1, q.1, q.2, q.2⟩ r hr'
  · intro b' hb'
    obtain ⟨h1, h2, h3, h4⟩ := hb' q (List.mem_cons_self q rest)
    exact foldl_extendB_minimal rest ⟨q.1, q.1, q.2, q.2⟩ b'
      ⟨h1, h2, h3, h4⟩ (fun r hr => hb' r (List.mem_cons_of_mem q hr))

/-! ### Per-route membership in the loop result -/

theorem buildLoop_route_mem (smap : Int → Option Station) (orc : Nat → ExpandResp)
    (pre post : List PlanningVehicle) (v : PlanningVehicle)
    (payload : Option (List Int))
    (hstops : ¬ v.stops.isEmpty)
    (horc : orc pre.length = .ok payload)
    (hlen : (buildPoints (expandRouteResult payload) smap).length > 1) :
    (⟨routeIdOf v pre.length, mapColor pre.length,
        buildPoints (expandRouteResult payload) smap⟩ : PolylineData) ∈
      (buildLoop smap orc 0 (pre ++ v :: post)).1 := by
  rw [buildLoop_append]
  apply List.mem_append_right
  simp only [Nat.zero_add, buildLoop, hstops, if_false, horc, hlen, if_true,
    Bool.false_eq_true]
  exact List.mem_cons_self _ _

theorem buildLoop_err_mem (smap : Int → Option Station) (orc : Nat → ExpandResp)
    (pre post : List PlanningVehicle) (v : PlanningVehicle)
    (hstops : ¬ v.stops.isEmpty)
    (horc : orc pre.length = .fail) :
    routeErrEntry v pre.length ∈ (buildLoop smap orc 0 (pre ++ v :: post)).2.1 := by
  rw [buildLoop_append]
  apply List.mem_append_right
  simp only [Nat.zero_add, buildLoop, hstops, if_false, horc, Bool.false_eq_true]
  exact List.mem_cons_self _ _

theorem buildLoop_call_mem (smap : Int → Option Station) (orc : Nat → ExpandResp)
    (pre post : List PlanningVehicle) (v : PlanningVehicle)
    (hstops : ¬ v.stops.isEmpty) :
    (pre.length, v.stops.map (·.station_id)) ∈
      (buildLoop smap orc 0 (pre ++ v :: post)).2.2 := by
  rw [buildLoop_append]
  apply List.mem_append_right
  simp only [Nat.zero_add, buildLoop, hstops, if_false, Bool.false_eq_true]
  cases orc pre.length with
  | fail => exact List.mem_cons_self _ _
  | ok payload =>
    by_cases hlen : (buildPoints (expandRouteResult payload) smap).length > 1 <;>
      simp [hlen]

theorem applyWs_append (s : RState) (a b : List W) :
    applyWs s (a ++ b) = applyWs (applyWs s a) b := by
  simp [applyWs, List.foldl_append]

theorem applyWs_start_idem (s : RState) :
    applyWs (applyWs s cycleStartWs) cycleStartWs = applyWs s cycleStartWs := by
  simp [applyWs, cycleStartWs, applyW]

/-! ### Claim theorems -/

/-- C6: for every expanded identifier sequence and location map, the
polyline builder equals looking every identifier up in order (absent ids
silently skipped) and then collapsing consecutive equal coordinates; the
result is moreover a sublist of the looked-up sequence, so point order
follows the expansion order and is never resorted. -/
theorem C6_builder_lookup_collapse (ids : List Int) (smap : Int → Option Station) :
    buildPoints ids smap = collapseConsecutive (coordsOf ids smap) ∧
    List.Sublist (buildPoints ids smap) (coordsOf ids smap) := by
  have h : buildPoints ids smap = collapseConsecutive (coordsOf ids smap) := by
    unfold buildPoints
    rw [buildPoints_eq_foldl, foldl_pushPoint_eq]
    simp [collapseFrom_none_eq]
  exact ⟨h, h ▸ collapseConsecutive_sublist (coordsOf ids smap)⟩

/-- C4: when the directory fetch fails the cycle aborts: `polylines` is
empty, the warning is the single fixed failure message, loading ends, and
no expansion call is issued at all, whatever the expansion oracle would
have answered. -/
theorem C4_directory_failure (s : RState) (p : Planning) (o : Oracle)
    (h : o.stationsResp = none) :
    (runCycle s p o).polylines = [] ∧
    (runCycle s p o).error = some fatalMsg ∧
    (runCycle s p o).loading = false ∧
    cycleCalls p o = [] := by
  rw [runCycle_dirFail s p o h]
  exact ⟨rfl, rfl, rfl, by simp [cycleCalls, cycleTail, h]⟩

theorem C4_directory_failure_witness :
    ((⟨none, fun _ => .ok (some [10, 20])⟩ : Oracle).stationsResp = none) ∧
    ((runCycle ⟨[⟨1, "s", 1, 1, true⟩], [⟨"x", "c", [(1, 1), (2, 2)]⟩], true, some "w"⟩
        ⟨[⟨"B", 0, false, 0, [⟨10, "s", 0, 0⟩], 0, 0⟩]⟩
        ⟨none, fun _ => .ok (some [10, 20])⟩).polylines = [] ∧
      (runCycle ⟨[⟨1, "s", 1, 1, true⟩], [⟨"x", "c", [(1, 1), (2, 2)]⟩], true, some "w"⟩
        ⟨[⟨"B", 0, false, 0, [⟨10, "s", 0, 0⟩], 0, 0⟩]⟩
        ⟨none, fun _ => .ok (some [10, 20])⟩).error = some fatalMsg ∧
      (runCycle ⟨[⟨1, "s", 1, 1, true⟩], [⟨"x", "c", [(1, 1), (2, 2)]⟩], true, some "w"⟩
        ⟨[⟨"B", 0, false, 0, [⟨10, "s", 0, 0⟩], 0, 0⟩]⟩
        ⟨none, fun _ => .ok (some [10, 20])⟩).loading = false ∧
      cycleCalls ⟨[⟨"B", 0, false, 0, [⟨10, "s", 0, 0⟩], 0, 0⟩]⟩
        ⟨none, fun _ => .ok (some [10, 20])⟩ = []) :=
  ⟨rfl, C4_directory_failure _ _ _ rfl⟩

/-- C10: a cycle that fails at the directory fetch (the only path to the
outer catch) leaves `stations` untouched while `polylines` was reset at
cycle start; `stations` is replaced exactly when the cycle reaches its
success / partial-failure completion. -/
theorem C10_locations_frame (s : RState) (p : Planning) (o : Oracle) :
    (o.stationsResp = none →
      (runCycle s p o).stations = s.stations ∧ (runCycle s p o).polylines = []) ∧
    (∀ sl, o.stationsResp = some sl → (runCycle s p o).stations = sl) := by
  constructor
  · intro h
    rw [runCycle_dirFail s p o h]
    exact ⟨rfl, rfl⟩
  · intro sl h
    rw [runCycle_dirOk s p o sl h]

theorem C10_locations_frame_witness :
    ((⟨none, fun _ => .fail⟩ : Oracle).stationsResp = none) ∧
    ((runCycle ⟨[⟨1, "s", 1, 1, true⟩], [], false, none⟩ ⟨[]⟩
        ⟨none, fun _ => .fail⟩).stations = [⟨1, "s", 1, 1, true⟩] ∧
      (runCycle ⟨[⟨1, "s", 1, 1, true⟩], [], false, none⟩ ⟨[]⟩
        ⟨none, fun _ => .fail⟩).polylines = []) :=
  ⟨rfl, (C10_locations_frame ⟨[⟨1, "s", 1, 1, true⟩], [], false, none⟩ ⟨[]⟩
      ⟨none, fun _ => .fail⟩).1 rfl⟩

/-- C2: if a second cycle starts while the first is still suspended on any
of its service calls (`j < numCalls`), the first cycle's only writes are
its synchronous start block — it performs no state update when it
eventually settles, because the aborted call rejects and every catch and
the `finally` observe `controller.signal.aborted` — and the final state of
the interleaved trace is exactly the state the second cycle alone produces
(any interleaving of the settled first cycle's remaining writes is the
empty interleaving). -/
theorem C2_cancellation (s : RState) (p1 : Planning) (o1 : Oracle) (j : Nat)
    (p2 : Planning) (o2 : Oracle) (hj : j < numCalls p1 o1) :
    runCycleWs p1 o1 (some j) = cycleStartWs ∧
    applyWs s (runCycleWs p1 o1 (some j) ++ runCycleWs p2 o2 none) =
      applyWs s (runCycleWs p2 o2 none) := by
  have h1 := runCycleWs_aborted p1 o1 j hj
  refine ⟨h1, ?_⟩
  rw [h1]
  conv_lhs => rw [runCycleWs, ← List.append_assoc]
  rw [applyWs_append, applyWs_append, applyWs_start_idem, ← applyWs_append,
    ← runCycleWs]

theorem C2_cancellation_witness :
    (0 < numCalls ⟨[⟨"A", 0, false, 0, [⟨10, "s", 0, 0⟩], 0, 0⟩]⟩
        ⟨some [], fun _ => .fail⟩) ∧
    (runCycleWs ⟨[⟨"A", 0, false, 0, [⟨10, "s", 0, 0⟩], 0, 0⟩]⟩
        ⟨some [], fun _ => .fail⟩ (some 0) = cycleStartWs ∧
      applyWs ⟨[], [], false, none⟩
          (runCycleWs ⟨[⟨"A", 0, false, 0, [⟨10, "s", 0, 0⟩], 0, 0⟩]⟩
              ⟨some [], fun _ => .fail⟩ (some 0) ++
            runCycleWs ⟨[]⟩ ⟨some [⟨1, "s", 1, 1, true⟩], fun _ => .fail⟩ none) =
        applyWs ⟨[], [], false, none⟩
          (runCycleWs ⟨[]⟩ ⟨some [⟨1, "s", 1, 1, true⟩], fun _ => .fail⟩ none)) :=
  ⟨by decide,
    C2_cancellation ⟨[], [], false, none⟩
      ⟨[⟨"A", 0, false, 0, [⟨10, "s", 0, 0⟩], 0, 0⟩]⟩ ⟨some [], fun _ => .fail⟩ 0
      ⟨[]⟩ ⟨some [⟨1, "s", 1, 1, true⟩], fun _ => .fail⟩ (by decide)⟩

/-- C8, code bug: a null input while a cycle is in flight aborts the cycle
(whose `finally` then skips `setLoading(false)`) and the null branch clears
`stations`, `polylines` and `error` but never touches `loading` — so
`loading` remains `true` although no render cycle is in flight any more,
contradicting the claimed invariant that a null input clears all output
including `loading`. -/
theorem C8_null_leaves_loading_stuck :
    (applyWs ⟨[], [], false, none⟩
        (runCycleWs ⟨[⟨"A", 0, false, 0, [⟨10, "s", 0, 0⟩], 0, 0⟩]⟩
            ⟨some [], fun _ => .fail⟩ (some 0) ++ nullClearWs)).loading = true ∧
    (applyWs ⟨[], [], false, none⟩
        (runCycleWs ⟨[⟨"A", 0, false, 0, [⟨10, "s", 0, 0⟩], 0, 0⟩]⟩
            ⟨some [], fun _ => .fail⟩ (some 0) ++ nullClearWs)).stations = [] ∧
    (applyWs ⟨[], [], false, none⟩
        (runCycleWs ⟨[⟨"A", 0, false, 0, [⟨10, "s", 0, 0⟩], 0, 0⟩]⟩
            ⟨some [], fun _ => .fail⟩ (some 0) ++ nullClearWs)).polylines = [] ∧
    (applyWs ⟨[], [], false, none⟩
        (runCycleWs ⟨[⟨"A", 0, false, 0, [⟨10, "s", 0, 0⟩], 0, 0⟩]⟩
            ⟨some [], fun _ => .fail⟩ (some 0) ++ nullClearWs)).error = none := by
  decide

/-- C1: when the directory fetch succeeds, per-route failure is isolated:
a route A that expands to at least 2 points yields its polyline in the
final state, a failed route B makes the warning non-null with B's label
verbatim inside it, and every route with a nonempty stop list still gets
its own expansion call. -/
theorem C1_failure_isolation (s : RState) (p : Planning) (o : Oracle)
    (sl : List Station)
    (preA postA : List PlanningVehicle) (A : PlanningVehicle)
    (pA : Option (List Int))
    (preB postB : List PlanningVehicle) (B : PlanningVehicle)
    (hsl : o.stationsResp = some sl)
    (hA : p.vehicles = preA ++ A :: postA)
    (hAstops : ¬ A.stops.isEmpty)
    (hAok : o.expandResp preA.length = .ok pA)
    (hApts : (buildPoints (expandRouteResult pA) (stationMapOf sl)).length > 1)
    (hB : p.vehicles = preB ++ B :: postB)
    (hBstops : ¬ B.stops.isEmpty)
    (hBfail : o.expandResp preB.length = .fail) :
    ((⟨routeIdOf A preA.length, mapColor preA.length,
        buildPoints (expandRouteResult pA) (stationMapOf sl)⟩ : PolylineData) ∈
      (runCycle s p o).polylines) ∧
    (∃ w, (runCycle s p o).error = some w ∧
      ∃ a b : String, w = a ++ B.vehicle_id ++ b) ∧
    (∀ (pre post : List PlanningVehicle) (C : PlanningVehicle),
      p.vehicles = pre ++ C :: post → ¬ C.stops.isEmpty →
      (pre.length, C.stops.map (·.station_id)) ∈ cycleCalls p o) := by
  have herr : routeErrEntry B preB.length ∈
      (buildLoop (stationMapOf sl) o.expandResp 0 p.vehicles).2.1 := by
    rw [hB]
    exact buildLoop_err_mem _ _ preB postB B hBstops hBfail
  have hne : ¬ (buildLoop (stationMapOf sl) o.expandResp 0 p.vehicles).2.1.isEmpty := by
    cases hE : (buildLoop (stationMapOf sl) o.expandResp 0 p.vehicles).2.1 with
    | nil => rw [hE] at herr; exact absurd herr (List.not_mem_nil _)
    | cons x xs => simp [hE]
  refine ⟨?_, ?_, ?_⟩
  · rw [runCycle_dirOk s p o sl hsl]
    show _ ∈ (buildLoop (stationMapOf sl) o.expandResp 0 p.vehicles).1
    rw [hA]
    exact buildLoop_route_mem _ _ preA postA A pA hAstops hAok hApts
  · rw [runCycle_dirOk s p o sl hsl]
    refine ⟨warnMsg (buildLoop (stationMapOf sl) o.expandResp 0 p.vehicles).2.1,
      by simp [hne], ?_⟩
    obtain ⟨a, b, hab⟩ := joinComma_decomp _ _ herr
    by_cases hid : B.vehicle_id = ""
    · exact ⟨"", warnMsg (buildLoop (stationMapOf sl) o.expandResp 0 p.vehicles).2.1,
        by simp [hid, String.empty_append]⟩
    · have hentry : routeErrEntry B preB.length =
          B.vehicle_id ++ ": Rota hesaplanamadı" := by
        simp [routeErrEntry, routeNameOf, hid]
      rw [hentry] at hab
      refine ⟨fatalMsg ++ " (" ++ a, ": Rota hesaplanamadı" ++ b ++ ")", ?_⟩
      rw [warnMsg, hab]
      simp [String.append_assoc]
  · intro pre post C hC hCstops
    have : cycleCalls p o =
        (buildLoop (stationMapOf sl) o.expandResp 0 p.vehicles).2.2 := by
      simp [cycleCalls, cycleTail, hsl]
    rw [this, hC]
    exact buildLoop_call_mem _ _ pre post C hCstops

theorem C1_failure_isolation_witness :
    ((⟨some [⟨10, "sA", 1, 1, true⟩, ⟨20, "sB", 2, 2, true⟩],
        fun i => if i = 0 then .ok (some [10, 20]) else .fail⟩ :
          Oracle).stationsResp = some [⟨10, "sA", 1, 1, true⟩, ⟨20, "sB", 2, 2, true⟩] ∧
      (⟨[⟨"A", 0, false, 0, [⟨10, "s", 0, 0⟩], 0, 0⟩,
          ⟨"B", 0, false, 0, [⟨20, "t", 0, 0⟩], 0, 0⟩]⟩ : Planning).vehicles =
        [] ++ ⟨"A", 0, false, 0, [⟨10, "s", 0, 0⟩], 0, 0⟩ ::
          [⟨"B", 0, false, 0, [⟨20, "t", 0, 0⟩], 0, 0⟩] ∧
      (⟨[⟨"A", 0, false, 0, [⟨10, "s", 0, 0⟩], 0, 0⟩,
          ⟨"B", 0, false, 0, [⟨20, "t", 0, 0⟩], 0, 0⟩]⟩ : Planning).vehicles =
        [⟨"A", 0, false, 0, [⟨10, "s", 0, 0⟩], 0, 0⟩] ++
          ⟨"B", 0, false, 0, [⟨20, "t", 0, 0⟩], 0, 0⟩ :: []) ∧
    (((⟨routeIdOf ⟨"A", 0, false, 0, [⟨10, "s", 0, 0⟩], 0, 0⟩ 0, mapColor 0,
        buildPoints (expandRouteResult (some [10, 20]))
          (stationMapOf [⟨10, "sA", 1, 1, true⟩, ⟨20, "sB", 2, 2, true⟩])⟩ :
          PolylineData) ∈
      (runCycle ⟨[], [], false, none⟩
          ⟨[⟨"A", 0, false, 0, [⟨10, "s", 0, 0⟩], 0, 0⟩,
            ⟨"B", 0, false, 0, [⟨20, "t", 0, 0⟩], 0, 0⟩]⟩
          ⟨some [⟨10, "sA", 1, 1, true⟩, ⟨20, "sB", 2, 2, true⟩],
            fun i => if i = 0 then .ok (some [10, 20]) else .fail⟩).polylines) ∧
      (∃ w, (runCycle ⟨[], [], false, none⟩
          ⟨[⟨"A", 0, false, 0, [⟨10, "s", 0, 0⟩], 0, 0⟩,
            ⟨"B", 0, false, 0, [⟨20, "t", 0, 0⟩], 0, 0⟩]⟩
          ⟨some [⟨10, "sA", 1, 1, true⟩, ⟨20, "sB", 2, 2, true⟩],
            fun i => if i = 0 then .ok (some [10, 20]) else .fail⟩).error = some w ∧
        ∃ a b : String, w = a ++ "B" ++ b)) :=
  ⟨⟨rfl, rfl, rfl⟩,
    let h := C1_failure_isolation ⟨[], [], false, none⟩
      ⟨[⟨"A", 0, false, 0, [⟨10, "s", 0, 0⟩], 0, 0⟩,
        ⟨"B", 0, false, 0, [⟨20, "t", 0, 0⟩], 0, 0⟩]⟩
      ⟨some [⟨10, "sA", 1, 1, true⟩, ⟨20, "sB", 2, 2, true⟩],
        fun i => if i = 0 then .ok (some [10, 20]) else .fail⟩
      [⟨10, "sA", 1, 1, true⟩, ⟨20, "sB", 2, 2, true⟩]
      [] [⟨"B", 0, false, 0, [⟨20, "t", 0, 0⟩], 0, 0⟩]
      ⟨"A", 0, false, 0, [⟨10, "s", 0, 0⟩], 0, 0⟩ (some [10, 20])
      [⟨"A", 0, false, 0, [⟨10, "s", 0, 0⟩], 0, 0⟩] []
      ⟨"B", 0, false, 0, [⟨20, "t", 0, 0⟩], 0, 0⟩
      rfl rfl (by decide) rfl (by decide) rfl (by decide) rfl
    ⟨h.1, h.2.1⟩⟩

/-- C3 counterexample: with a zero-stop first route (skipped, no expansion
attempted) and a successfully expanded second route, the second route —
the first and only attempted expansion, so `palette[0]` under the claim —
is rendered with `palette[1]`: the palette index is the route's position
in the full input list, and a skipped route does consume a slot. -/
theorem C3_color_counterexample :
    attemptedCountL [⟨"A", 0, false, 0, [], 0, 0⟩,
      ⟨"B", 0, false, 0, [⟨10, "s", 0, 0⟩, ⟨20, "t", 0, 0⟩], 0, 0⟩] = 1 ∧
    (runCycle ⟨[], [], false, none⟩
        ⟨[⟨"A", 0, false, 0, [], 0, 0⟩,
          ⟨"B", 0, false, 0, [⟨10, "s", 0, 0⟩, ⟨20, "t", 0, 0⟩], 0, 0⟩]⟩
        ⟨some [⟨10, "sA", 1, 1, true⟩, ⟨20, "sB", 2, 2, true⟩],
          fun _ => .ok (some [10, 20])⟩).polylines.map (·.color) = [mapColor 1] ∧
    mapColor 1 ≠ mapColor 0 := by
  refine ⟨rfl, ?_, by decide⟩
  decide

/-- C3 as amended: the color of each rendered polyline is
`palette[i mod palette.length]` where `i` is the route's index in the
full input order (a route skipped for having zero stops still advances
the index), and the rendered polylines do not depend on the previous
state, so repeated renders with the same input and responses assign the
same colors. -/
theorem C3_color_by_input_index (s : RState) (p : Planning) (o : Oracle)
    (sl : List Station)
    (pre post : List PlanningVehicle) (v : PlanningVehicle)
    (payload : Option (List Int))
    (hsl : o.stationsResp = some sl)
    (hv : p.vehicles = pre ++ v :: post)
    (hstops : ¬ v.stops.isEmpty)
    (hok : o.expandResp pre.length = .ok payload)
    (hlen : (buildPoints (expandRouteResult payload) (stationMapOf sl)).length > 1) :
    ((⟨routeIdOf v pre.length, mapColor pre.length,
        buildPoints (expandRouteResult payload) (stationMapOf sl)⟩ :
        PolylineData) ∈ (runCycle s p o).polylines) ∧
    (∀ s' : RState, (runCycle s' p o).polylines = (runCycle s p o).polylines) := by
  constructor
  · rw [runCycle_dirOk s p o sl hsl]
    show _ ∈ (buildLoop (stationMapOf sl) o.expandResp 0 p.vehicles).1
    rw [hv]
    exact buildLoop_route_mem _ _ pre post v payload hstops hok hlen
  · intro s'
    rw [runCycle_dirOk s p o sl hsl, runCycle_dirOk s' p o sl hsl]

theorem C3_color_by_input_index_witness :
    ((⟨some [⟨10, "sA", 1, 1, true⟩, ⟨20, "sB", 2, 2, true⟩], fun _ => .ok (some [10, 10, 20])⟩ :
        Oracle).stationsResp = some [⟨10, "sA", 1, 1, true⟩, ⟨20, "sB", 2, 2, true⟩] ∧
      (⟨[⟨"V1", 0, false, 0, [⟨10, "s", 0, 0⟩], 0, 0⟩]⟩ : Planning).vehicles =
        [] ++ ⟨"V1", 0, false, 0, [⟨10, "s", 0, 0⟩], 0, 0⟩ :: []) ∧
    ((⟨routeIdOf ⟨"V1", 0, false, 0, [⟨10, "s", 0, 0⟩], 0, 0⟩ 0, mapColor 0,
        buildPoints (expandRouteResult (some [10, 10, 20]))
          (stationMapOf [⟨10, "sA", 1, 1, true⟩, ⟨20, "sB", 2, 2, true⟩])⟩ : PolylineData) ∈
      (runCycle ⟨[], [], false, none⟩
          ⟨[⟨"V1", 0, false, 0, [⟨10, "s", 0, 0⟩], 0, 0⟩]⟩
          ⟨some [⟨10, "sA", 1, 1, true⟩, ⟨20, "sB", 2, 2, true⟩],
            fun _ => .ok (some [10, 10, 20])⟩).polylines) := by
  have hlen : (buildPoints (expandRouteResult (some [10, 10, 20]))
      (stationMapOf [⟨10, "sA", 1, 1, true⟩, ⟨20, "sB", 2, 2, true⟩])).length > 1 := by decide
  exact ⟨⟨rfl, rfl⟩,
    (C3_color_by_input_index ⟨[], [], false, none⟩
      ⟨[⟨"V1", 0, false, 0, [⟨10, "s", 0, 0⟩], 0, 0⟩]⟩
      ⟨some [⟨10, "sA", 1, 1, true⟩, ⟨20, "sB", 2, 2, true⟩], fun _ => .ok (some [10, 10, 20])⟩
      [⟨10, "sA", 1, 1, true⟩, ⟨20, "sB", 2, 2, true⟩] [] [] ⟨"V1", 0, false, 0, [⟨10, "s", 0, 0⟩], 0, 0⟩
      (some [10, 10, 20]) rfl rfl (by decide) rfl hlen).1⟩

/-- C5: an attempted route whose expansion succeeds contributes a
`RenderedPolyline` exactly when its point list (after lookup and
duplicate removal) has at least 2 points; a route with fewer points
contributes nothing to `polylines` but also nothing to the error list,
and if no route at all failed the warning stays `null`. -/
theorem C5_two_point_threshold (s : RState) (p : Planning) (o : Oracle)
    (sl : List Station)
    (pre post : List PlanningVehicle) (v : PlanningVehicle)
    (payload : Option (List Int))
    (hsl : o.stationsResp = some sl)
    (hv : p.vehicles = pre ++ v :: post)
    (hstops : ¬ v.stops.isEmpty)
    (hok : o.expandResp pre.length = .ok payload) :
    (runCycle s p o).polylines =
      (buildLoop (stationMapOf sl) o.expandResp 0 pre).1 ++
      (if (buildPoints (expandRouteResult payload) (stationMapOf sl)).length > 1
        then [⟨routeIdOf v pre.length, mapColor pre.length,
          buildPoints (expandRouteResult payload) (stationMapOf sl)⟩]
        else []) ++
      (buildLoop (stationMapOf sl) o.expandResp (pre.length + 1) post).1 ∧
    (buildLoop (stationMapOf sl) o.expandResp 0 p.vehicles).2.1 =
      (buildLoop (stationMapOf sl) o.expandResp 0 pre).2.1 ++
      (buildLoop (stationMapOf sl) o.expandResp (pre.length + 1) post).2.1 ∧
    ((buildLoop (stationMapOf sl) o.expandResp 0 p.vehicles).2.1 = [] →
      (runCycle s p o).error = none) := by
  refine ⟨?_, ?_, ?_⟩
  · rw [runCycle_dirOk s p o sl hsl]
    show (buildLoop (stationMapOf sl) o.expandResp 0 p.vehicles).1 = _
    rw [hv, buildLoop_append]
    simp only [Nat.zero_add, buildLoop, hstops, if_false, hok, Bool.false_eq_true]
    by_cases hlen :
        (buildPoints (expandRouteResult payload) (stationMapOf sl)).length > 1 <;>
      simp [hlen]
  · rw [hv, buildLoop_append]
    simp only [Nat.zero_add, buildLoop, hstops, if_false, hok, Bool.false_eq_true]
  · intro hE
    rw [runCycle_dirOk s p o sl hsl]
    simp [hE]

theorem C5_two_point_threshold_witness :
    ((⟨some [⟨10, "sA", 1, 1, true⟩], fun _ => .ok (some [10])⟩ :
        Oracle).stationsResp = some [⟨10, "sA", 1, 1, true⟩] ∧
      (⟨[⟨"V1", 0, false, 0, [⟨10, "s", 0, 0⟩], 0, 0⟩]⟩ : Planning).vehicles =
        [] ++ ⟨"V1", 0, false, 0, [⟨10, "s", 0, 0⟩], 0, 0⟩ :: []) ∧
    ((runCycle ⟨[], [], false, none⟩
        ⟨[⟨"V1", 0, false, 0, [⟨10, "s", 0, 0⟩], 0, 0⟩]⟩
        ⟨some [⟨10, "sA", 1, 1, true⟩], fun _ => .ok (some [10])⟩).polylines =
      (buildLoop (stationMapOf [⟨10, "sA", 1, 1, true⟩])
          (fun _ => ExpandResp.ok (some [10])) 0 []).1 ++
      (if (buildPoints (expandRouteResult (some [10]))
            (stationMapOf [⟨10, "sA", 1, 1, true⟩])).length > 1
        then [⟨routeIdOf ⟨"V1", 0, false, 0, [⟨10, "s", 0, 0⟩], 0, 0⟩ 0, mapColor 0,
          buildPoints (expandRouteResult (some [10]))
            (stationMapOf [⟨10, "sA", 1, 1, true⟩])⟩]
        else []) ++
      (buildLoop (stationMapOf [⟨10, "sA", 1, 1, true⟩])
          (fun _ => ExpandResp.ok (some [10])) 1 []).1) :=
  ⟨⟨rfl, rfl⟩,
    (C5_two_point_threshold ⟨[], [], false, none⟩
      ⟨[⟨"V1", 0, false, 0, [⟨10, "s", 0, 0⟩], 0, 0⟩]⟩
      ⟨some [⟨10, "sA", 1, 1, true⟩], fun _ => .ok (some [10])⟩
      [⟨10, "sA", 1, 1, true⟩] [] [] ⟨"V1", 0, false, 0, [⟨10, "s", 0, 0⟩], 0, 0⟩
      (some [10]) rfl rfl (by decide) rfl).1⟩

/-- C9: a 2xx expansion response whose `expanded_station_ids` field is
absent or falsy is coerced to the empty sequence: the route yields zero
points, contributes no polyline and no error entry (the warning stays
`null` if nothing else failed), yet its expansion call was issued. -/
theorem C9_missing_payload_field (s : RState) (p : Planning) (o : Oracle)
    (sl : List Station)
    (pre post : List PlanningVehicle) (v : PlanningVehicle)
    (hsl : o.stationsResp = some sl)
    (hv : p.vehicles = pre ++ v :: post)
    (hstops : ¬ v.stops.isEmpty)
    (hok : o.expandResp pre.length = .ok none) :
    expandRouteResult none = [] ∧
    (runCycle s p o).polylines =
      (buildLoop (stationMapOf sl) o.expandResp 0 pre).1 ++
      (buildLoop (stationMapOf sl) o.expandResp (pre.length + 1) post).1 ∧
    (buildLoop (stationMapOf sl) o.expandResp 0 p.vehicles).2.1 =
      (buildLoop (stationMapOf sl) o.expandResp 0 pre).2.1 ++
      (buildLoop (stationMapOf sl) o.expandResp (pre.length + 1) post).2.1 ∧
    (pre.length, v.stops.map (·.station_id)) ∈ cycleCalls p o ∧
    ((buildLoop (stationMapOf sl) o.expandResp 0 p.vehicles).2.1 = [] →
      (runCycle s p o).error = none) := by
  obtain ⟨h1, h2, h3⟩ :=
    C5_two_point_threshold s p o sl pre post v none hsl hv hstops hok
  refine ⟨rfl, ?_, h2, ?_, h3⟩
  · rw [h1]
    simp [expandRouteResult, buildPoints]
  · have : cycleCalls p o =
        (buildLoop (stationMapOf sl) o.expandResp 0 p.vehicles).2.2 := by
      simp [cycleCalls, cycleTail, hsl]
    rw [this, hv]
    exact buildLoop_call_mem _ _ pre post v hstops

theorem C9_missing_payload_field_witness :
    ((⟨some [⟨10, "sA", 1, 1, true⟩], fun _ => .ok none⟩ :
        Oracle).stationsResp = some [⟨10, "sA", 1, 1, true⟩] ∧
      (⟨[⟨"V1", 0, false, 0, [⟨10, "s", 0, 0⟩], 0, 0⟩]⟩ : Planning).vehicles =
        [] ++ ⟨"V1", 0, false, 0, [⟨10, "s", 0, 0⟩], 0, 0⟩ :: []) ∧
    ((runCycle ⟨[], [], false, none⟩
        ⟨[⟨"V1", 0, false, 0, [⟨10, "s", 0, 0⟩], 0, 0⟩]⟩
        ⟨some [⟨10, "sA", 1, 1, true⟩], fun _ => .ok none⟩).polylines =
      (buildLoop (stationMapOf [⟨10, "sA", 1, 1, true⟩]) (fun _ => ExpandResp.ok none)
          0 []).1 ++
      (buildLoop (stationMapOf [⟨10, "sA", 1, 1, true⟩]) (fun _ => ExpandResp.ok none)
          1 []).1 ∧
      (0, [(10 : Int)]) ∈ cycleCalls ⟨[⟨"V1", 0, false, 0, [⟨10, "s", 0, 0⟩], 0, 0⟩]⟩
        ⟨some [⟨10, "sA", 1, 1, true⟩], fun _ => .ok none⟩ ∧
      (runCycle ⟨[], [], false, none⟩
        ⟨[⟨"V1", 0, false, 0, [⟨10, "s", 0, 0⟩], 0, 0⟩]⟩
        ⟨some [⟨10, "sA", 1, 1, true⟩], fun _ => .ok none⟩).error = none) := by
  have h := C9_missing_payload_field ⟨[], [], false, none⟩
    ⟨[⟨"V1", 0, false, 0, [⟨10, "s", 0, 0⟩], 0, 0⟩]⟩
    ⟨some [⟨10, "sA", 1, 1, true⟩], fun _ => .ok none⟩
    [⟨10, "sA", 1, 1, true⟩] [] [] ⟨"V1", 0, false, 0, [⟨10, "s", 0, 0⟩], 0, 0⟩
    rfl rfl (by decide) rfl
  exact ⟨⟨rfl, rfl⟩, h.2.1, h.2.2.2.1, h.2.2.2.2 (by decide)⟩

/-- The fallback C7 describes, stated from the spec's words: the
single-point rectangle around the first **active** Location with valid
coordinates.  Compared against the source's `boundsOf`, whose fallback
predicate `s.lat && s.lon` ignores the active flag. -/
def firstActiveValid (sts : List Station) : Option Station :=
  sts.find? (fun s => s.is_active && s.lat != 0 && s.lon != 0)

/-- C7 as stated (fallback clause): whenever there are no polyline points
and an active Location with valid coordinates exists, the viewport is the
single-point rectangle around the first such Location. -/
def C7FallbackClaim : Prop :=
  ∀ (pls : List PolylineData) (sts : List Station) (st : Station),
    allPointsOf pls = [] → firstActiveValid sts = some st →
    boundsOf pls sts = some ⟨st.lat, st.lat, st.lon, st.lon⟩

/-- C7 counterexample: with no polylines and stations
`[{id 1, inactive, (5,5)}, {id 2, active, (6,6)}]` the code falls back to
the *inactive* station 1 (its predicate only checks coordinate
truthiness), not to the first active station 2 as the claim states. -/
theorem C7_fallback_counterexample : ¬ C7FallbackClaim := by
  intro h
  have := h [] [⟨1, "a", 5, 5, false⟩, ⟨2, "b", 6, 6, true⟩]
    ⟨2, "b", 6, 6, true⟩ rfl (by decide)
  exact absurd this (by decide)

/-- C7 as amended: the viewport is the smallest rectangle covering every
point of every rendered polyline; with no polyline points it falls back
to a single-point rectangle around the first Location whose coordinates
are nonzero (regardless of its active flag); and with no such Location
the bounds are null and the map center falls back to the fixed default
region. -/
theorem C7_bounds_contract (pls : List PolylineData) (sts : List Station) :
    (∀ q rest, allPointsOf pls = q :: rest →
      ∃ b, boundsOf pls sts = some b ∧ covers b (allPointsOf pls) ∧
        ∀ b', covers b' (allPointsOf pls) → rectWithin b b') ∧
    (∀ st, allPointsOf pls = [] →
      sts.find? (fun x => x.lat != 0 && x.lon != 0) = some st →
      boundsOf pls sts = some ⟨st.lat, st.lat, st.lon, st.lon⟩) ∧
    (allPointsOf pls = [] →
      sts.find? (fun x => x.lat != 0 && x.lon != 0) = none →
      boundsOf pls sts = none ∧
        centerOf (boundsOf pls sts) = DEFAULT_CENTER) := by
  refine ⟨?_, ?_, ?_⟩
  · intro q rest hpts
    obtain ⟨b, hb, hc, hm⟩ := latLngBounds_least q rest
    refine ⟨b, ?_, ?_, ?_⟩
    · simp [boundsOf, hpts, hb]
    · rw [hpts]; exact hc
    · intro b' h'
      rw [hpts] at h'
      exact hm b' h'
  · intro st hpts hfind
    simp [boundsOf, hpts, hfind]
  · intro hpts hfind
    have hb : boundsOf pls sts = none := by simp [boundsOf, hpts, hfind]
    exact ⟨hb, by rw [hb]; rfl⟩

theorem C7_bounds_contract_witness :
    (allPointsOf [⟨"x", "c", [((1 : Int), (2 : Int)), (3, 4)]⟩] =
      ((1 : Int), (2 : Int)) :: [((3 : Int), (4 : Int))]) ∧
    (∃ b, boundsOf [⟨"x", "c", [((1 : Int), (2 : Int)), (3, 4)]⟩] [] = some b ∧
      covers b (allPointsOf [⟨"x", "c", [((1 : Int), (2 : Int)), (3, 4)]⟩]) ∧
      ∀ b', covers b' (allPointsOf [⟨"x", "c", [((1 : Int), (2 : Int)), (3, 4)]⟩]) →
        rectWithin b b') :=
  ⟨rfl, (C7_bounds_contract [⟨"x", "c", [((1 : Int), (2 : Int)), (3, 4)]⟩] []).1
    ((1 : Int), (2 : Int)) [((3 : Int), (4 : Int))] rfl⟩

end PlanningMap
